import Mathlib

/-!
Verification of the job lifecycle and capacity-gated token issuance subsystem
of a multi-tenant car-wash management backend.

The embedding translates, from the JavaScript source:
  * `src/utils/job.utils.js` — `generateRandomString`, `generateTokenNumber`,
    `canAcceptNewJob`, `isValidStatusTransition`;
  * the admin router (`POST /jobs` creation pipeline with its duplicate-key
    retry loop, and `PATCH /jobs/:id/status` with its afterImages guard,
    transition check and history append).

Persistence (`Job.findOne`, `Job.create`, `countDocuments`) is modelled by
explicit lists of the tenant's documents and by per-attempt outcome oracles;
`Math.random()` is modelled by an index stream; wall-clock time by explicit
numeric parameters.
-/

/-! ## Data model -/

/-- One entry of a job's `statusHistory` array: `{status, notes, changedAt}`. -/
structure HistoryEntry where
  status : String
  notes : Option String
  changedAt : Nat
deriving Repr, DecidableEq

/-- Price-snapshot of a service on a job: `{serviceId, price}` as built by
`services.map(s => ({serviceId: s._id, price: s.price}))` in the creation route. -/
structure ServiceSnapshot where
  serviceId : String
  price : Int
deriving Repr, DecidableEq

/-- The fields of a Job document that the verified subsystem reads or writes. -/
structure Job where
  tokenNumber : String
  status : String
  totalPrice : Int
  services : List ServiceSnapshot
  statusHistory : List HistoryEntry
  afterImages : List String
  actualDelivery : Option Nat
deriving Repr, DecidableEq

/-- A catalog service as returned by `Service.find` (only the fields the
creation route uses: `_id` and `price`). -/
structure Service where
  id : String
  price : Int
deriving Repr, DecidableEq

/-- The fields of a Business document read by `canAcceptNewJob`:
`carHandlingCapacity` (the string `'SINGLE'` or `'MULTIPLE'`) and
`maxConcurrentJobs`. -/
structure Business where
  carHandlingCapacity : String
  maxConcurrentJobs : Nat
deriving Repr, DecidableEq

/-! ## Lifecycle state machine (`isValidStatusTransition`) -/

/-- `statusOrder` array from `isValidStatusTransition` in `job.utils.js`. -/
def statusOrder : List String :=
  ["RECEIVED", "IN_PROGRESS", "WASHING", "DRYING", "COMPLETED", "DELIVERED"]

/-- JavaScript `Array.prototype.indexOf`: index of the first occurrence of `s`
starting from accumulator `k`, or `-1` when absent. -/
def jsIndexOfAux (l : List String) (s : String) (k : Int) : Int :=
  match l with
  | [] => -1
  | x :: xs => if x = s then k else jsIndexOfAux xs s (k + 1)

/-- `statusOrder.indexOf(s)`. -/
def jsIndexOf (l : List String) (s : String) : Int :=
  jsIndexOfAux l s 0

/-- `isValidStatusTransition(currentStatus, newStatus)` from `job.utils.js`:
cancelling is legal unless already DELIVERED or CANCELLED; otherwise both
statuses must appear in `statusOrder` and the new index must be ≥ the current
index. -/
def isValidStatusTransition (currentStatus newStatus : String) : Bool :=
  if newStatus = "CANCELLED" then
    decide (currentStatus ≠ "DELIVERED") && decide (currentStatus ≠ "CANCELLED")
  else if jsIndexOf statusOrder currentStatus = -1 || jsIndexOf statusOrder newStatus = -1 then
    false
  else
    decide (jsIndexOf statusOrder newStatus ≥ jsIndexOf statusOrder currentStatus)

/-- The status whitelist of the current `PATCH /jobs/:id/status` route
(`body('status').isIn([...])`). -/
def allowedStatuses : List String :=
  ["RECEIVED", "WORK_STARTED", "COMPLETED", "DELIVERED", "CANCELLED"]

/-! ## Token allocator (`generateTokenNumber`) -/

/-- The alphabet `'ABCDEFGHJKLMNPQRSTUVWXYZ23456789'` of
`generateRandomString` (confusable characters 0, O, I, 1 excluded). -/
def safeChars : List Char :=
  ['A', 'B', 'C', 'D', 'E', 'F', 'G', 'H', 'J', 'K', 'L', 'M', 'N', 'P', 'Q', 'R',
   'S', 'T', 'U', 'V', 'W', 'X', 'Y', 'Z', '2', '3', '4', '5', '6', '7', '8', '9']

/-- `generateRandomString(length)`: each draw `chars.charAt(Math.floor(
Math.random() * chars.length))` is modelled by one value of the index stream
`rand` (`Math.random() < 1`, so every index is below 32 = `chars.length`). -/
def generateRandomString (len : Nat) (rand : Nat → Fin 32) : String :=
  String.mk ((List.range len).map (fun i => safeChars.get ((rand i).cast rfl)))

/-- One decimal digit character: `Char.ofNat (48 + n % 10)`. -/
def digitChar (n : Nat) : Char := Char.ofNat (48 + n % 10)

/-- Four-digit zero-padded decimal rendering (the year part of
`toISOString()`). -/
def pad4 (n : Nat) : String :=
  String.mk [digitChar (n / 1000), digitChar (n / 100), digitChar (n / 10), digitChar n]

/-- Two-digit zero-padded decimal rendering (month/day parts of
`toISOString()`). -/
def pad2 (n : Nat) : String :=
  String.mk [digitChar (n / 10), digitChar n]

/-- `today.toISOString().split('T')[0]` with the dashes stripped by the
`replace` call: the UTC date as the compact string YYYYMMDD. -/
def dateStr (y m d : Nat) : String := pad4 y ++ pad2 m ++ pad2 d

/-- The `while (attempts < maxAttempts)` retry loop of `generateTokenNumber`:
`fuel` is the number of attempts still allowed (`maxAttempts - attempts`), and
attempt number `attempts` consumes random draws `6*attempts .. 6*attempts+5`.
The `Job.findOne({businessId, tokenNumber})` existence probe is modelled by
membership in the tenant's list of existing token numbers. -/
def tokenLoopAux (ds : String) (existing : List String) (rand : Nat → Fin 32) :
    Nat → Nat → Option String
  | _, 0 => none
  | attempts, fuel + 1 =>
    let randomSuffix := generateRandomString 6 (fun k => rand (6 * attempts + k))
    let tokenNumber := ds ++ "-" ++ randomSuffix
    if existing.contains tokenNumber then
      tokenLoopAux ds existing rand (attempts + 1) fuel
    else some tokenNumber

/-- The primary path of `generateTokenNumber`: up to `maxAttempts = 10` draws;
`none` means every attempt collided. -/
def tokenLoop (ds : String) (existing : List String) (rand : Nat → Fin 32) :
    Option String :=
  tokenLoopAux ds existing rand 0 10

/-- One base-36 digit, already uppercased: `toString(36)` renders 0–9 then
a–z, and the code applies `.toUpperCase()`. -/
def base36Char (n : Nat) : Char :=
  if n < 10 then Char.ofNat (48 + n) else Char.ofNat (55 + n)

/-- `n.toString(36).toUpperCase()` as a character list (most significant digit
first). -/
def toBase36 (n : Nat) : List Char :=
  if n < 36 then [base36Char n]
  else toBase36 (n / 36) ++ [base36Char (n % 36)]
termination_by n
decreasing_by exact Nat.div_lt_self (by omega) (by omega)

/-- `Date.now().toString(36).toUpperCase().slice(-4)`: the last four
characters (or all of them when fewer). -/
def timestampTail (ts : Nat) : String :=
  String.mk ((toBase36 ts).drop ((toBase36 ts).length - 4))

/-- `generateTokenNumber(businessId)` from `job.utils.js`: the date is the
`(y, m, d)` triple, `Date.now()` is `ts`, the tenant's persisted token numbers
are `existing`, and `rand` is the `Math.random()` index stream (the fallback's
4-character suffix consumes the draws after the 60 used by the ten primary
attempts). -/
def generateTokenNumber (y m d ts : Nat) (existing : List String)
    (rand : Nat → Fin 32) : String :=
  match tokenLoop (dateStr y m d) existing rand with
  | some tokenNumber => tokenNumber
  | none =>
    dateStr y m d ++ "-" ++ timestampTail ts ++ generateRandomString 4 (fun k => rand (60 + k))

/-- Membership in the safe alphabet. -/
def isSafeChar (c : Char) : Bool := safeChars.contains c

/-- The regex `^[0-9]{8}-[A-Z2-9]{6}$` (with `[A-Z2-9]` restricted to the safe
alphabet, i.e. excluding O and I as the claim states): 8 digit characters, a
dash, then 6 safe characters — 15 characters in all. -/
def primaryTokenFormat (t : String) : Bool :=
  decide (t.data.length = 15) && (t.data.take 8).all Char.isDigit &&
    decide (t.data.get? 8 = some '-') && (t.data.drop 9).all isSafeChar

/-! ## Capacity gate (`canAcceptNewJob`) -/

/-- The `$nin` set of `countDocuments`: statuses that do not count as active. -/
def inactiveStatuses : List String :=
  ["COMPLETED", "DELIVERED", "CANCELLED"]

/-- `Job.countDocuments({businessId, status: {$nin: [...]}})` over the tenant's
job documents. -/
def activeJobsCount (jobs : List Job) : Nat :=
  (jobs.filter (fun j => !(inactiveStatuses.contains j.status))).length

/-- The `{canAccept, reason?}` object returned by `canAcceptNewJob`. -/
structure CapacityResult where
  canAccept : Bool
  reason : Option String
deriving Repr, DecidableEq

/-- `canAcceptNewJob(businessId)` from `job.utils.js`; `Business.findById` is
modelled by the `Option Business` argument and the tenant's job collection by
the `jobs` list. -/
def canAcceptNewJob (business : Option Business) (jobs : List Job) : CapacityResult :=
  match business with
  | none => ⟨false, some "Business not found"⟩
  | some b =>
    if b.carHandlingCapacity = "SINGLE" then
      if activeJobsCount jobs ≥ 1 then
        ⟨false, some "Another job is already in progress"⟩
      else ⟨true, none⟩
    else
      if activeJobsCount jobs ≥ b.maxConcurrentJobs then
        ⟨false, some ("Maximum capacity of " ++ toString b.maxConcurrentJobs ++ " jobs reached")⟩
      else ⟨true, none⟩

/-- The admission limit the claim describes: 1 under SINGLE, otherwise
`maxConcurrentJobs`. -/
def capacityLimit (b : Business) : Nat :=
  if b.carHandlingCapacity = "SINGLE" then 1 else b.maxConcurrentJobs

/-- The fleet-capacity rejection reason for limit `n`. -/
def fleetReason (n : Nat) : String :=
  "Maximum capacity of " ++ toString n ++ " jobs reached"

/-! ## Status-update handler (`PATCH /jobs/:id/status`) -/

/-- The guard condition `!Array.isArray(afterImages) || afterImages.length < 2`
of the delivery check (a missing body field is not an array). -/
def afterImagesTooFew : Option (List String) → Bool
  | none => true
  | some l => decide (l.length < 2)

/-- The distinct rejection outcomes of the status-update route. -/
inductive UpdateErr
  | badStatusValue
  | missingAfterImages
  | jobNotFound
  | invalidTransition
deriving Repr, DecidableEq

/-- The `PATCH /jobs/:id/status` handler of the current admin router:
status whitelist validation, the afterImages guard for DELIVERED, job lookup
(the tenant/assignee-scoped `findOne` is modelled by the `Option Job`
argument), the transition check, then the mutation (set status, overwrite
afterImages when a body array is present, stamp `actualDelivery` on DELIVERED,
append one history entry) followed by `job.save()`. An error result means the
handler returned before `job.save()`, so the stored document is unchanged. -/
def updateJobStatus (job : Option Job) (status : String) (notes : Option String)
    (afterImages : Option (List String)) (now : Nat) : Except UpdateErr Job :=
  if !(allowedStatuses.contains status) then .error .badStatusValue
  else if status == "DELIVERED" && afterImagesTooFew afterImages then
    .error .missingAfterImages
  else
    match job with
    | none => .error .jobNotFound
    | some j =>
      if !(isValidStatusTransition j.status status) then .error .invalidTransition
      else .ok { j with
        status := status
        afterImages := match afterImages with | some l => l | none => j.afterImages
        actualDelivery := if status == "DELIVERED" then some now else j.actualDelivery
        statusHistory := j.statusHistory ++ [⟨status, notes, now⟩] }

/-- The stored document after the handler runs: `job.save()` writes the new
document only on the success path. -/
def persistedJob (stored : Option Job) (r : Except UpdateErr Job) : Option Job :=
  match r with
  | .ok j => some j
  | .error _ => stored

/-! ## Job orchestrator (`POST /jobs`) -/

/-- Outcome of one `Job.create` call as classified by the retry loop's catch
block: success, a duplicate-key error (`createError.code === 11000`), or any
other error. -/
inductive InsertOutcome
  | success
  | dupKey
  | otherFailure
deriving Repr, DecidableEq

/-- The rejections and thrown errors of the creation pipeline. -/
inductive CreateErr
  | capacityRejected (reason : String)
  | customerOrCarNotFound
  | servicesNotFound
  | duplicateKeyExhausted
  | insertFailure
  | noJob
deriving Repr, DecidableEq

/-- Externally visible persistence side effects of the creation pipeline, in
program order: a `generateTokenNumber` call, a `Job.create` attempt, or the
randomized backoff wait between retries. -/
inductive Effect
  | tokenGen (token : String)
  | insertAttempt (token : String)
  | backoff
deriving Repr, DecidableEq

/-- The environment of one `POST /jobs` request: the tenant document and its
jobs (for the capacity gate), the customer/car ownership lookups, the
`Service.find` resolution of the requested `serviceIds` (`serviceIdsCount` is
`serviceIds.length`, `resolvedServices` the active owned services found),
the token produced by each `generateTokenNumber` call, the outcome of each
`Job.create` attempt, and the current time. -/
structure CreateEnv where
  business : Option Business
  tenantJobs : List Job
  customerFound : Bool
  carFound : Bool
  serviceIdsCount : Nat
  resolvedServices : List Service
  tokens : Nat → String
  outcome : Nat → InsertOutcome
  now : Nat

/-- The document persisted by `Job.create` on attempt `attempts`. The explicit
fields (`tokenNumber`, `totalPrice`, the service snapshots, the one-entry
`statusHistory`) are those of the route's `Job.create({...})` call; the fields
the call omits take the `jobSchema` defaults: `status` has
`default: 'RECEIVED'`, `afterImages` is a string-array path (a Mongoose array
path defaults to the empty array), and `actualDelivery` is an optional `Date`
left unset. -/
def createdDoc (env : CreateEnv) (totalPrice : Int) (attempts : Nat) : Job :=
  { tokenNumber := env.tokens attempts
    status := "RECEIVED"
    totalPrice := totalPrice
    services := env.resolvedServices.map (fun s => ⟨s.id, s.price⟩)
    statusHistory := [⟨"RECEIVED", none, env.now⟩]
    afterImages := []
    actualDelivery := none }

/-- The `while (attempts < maxAttempts)` creation retry loop with
`maxAttempts = 5`: `fuel` is `maxAttempts - attempts`. Each pass generates a
token and attempts the insert; a duplicate-key failure with
`attempts < maxAttempts - 1` backs off and retries, a duplicate-key failure on
the final attempt rethrows it, any other failure rethrows immediately; fuel
exhaustion is the `if (!job) throw` guard after the loop. The second component
records the persistence side effects in order. -/
def createJobLoop (env : CreateEnv) (totalPrice : Int) :
    Nat → Nat → (Except CreateErr Job) × List Effect
  | _, 0 => (.error .noJob, [])
  | attempts, fuel + 1 =>
    let tokenNumber := env.tokens attempts
    match env.outcome attempts with
    | .success =>
      (.ok (createdDoc env totalPrice attempts),
       [.tokenGen tokenNumber, .insertAttempt tokenNumber])
    | .dupKey =>
      if attempts < 5 - 1 then
        ((createJobLoop env totalPrice (attempts + 1) fuel).1,
         [.tokenGen tokenNumber, .insertAttempt tokenNumber, .backoff] ++
           (createJobLoop env totalPrice (attempts + 1) fuel).2)
      else
        (.error .duplicateKeyExhausted, [.tokenGen tokenNumber, .insertAttempt tokenNumber])
    | .otherFailure =>
      (.error .insertFailure, [.tokenGen tokenNumber, .insertAttempt tokenNumber])

/-- The `POST /jobs` handler pipeline: capacity gate, customer/car ownership
check, service resolution (reject when `services.length !== serviceIds.length`),
`totalPrice = services.reduce((sum, s) => sum + s.price, 0)`, then the
token-generation/insert retry loop. -/
def createJob (env : CreateEnv) : (Except CreateErr Job) × List Effect :=
  if !(canAcceptNewJob env.business env.tenantJobs).canAccept then
    (.error (.capacityRejected ((canAcceptNewJob env.business env.tenantJobs).reason.getD "")), [])
  else if !(env.customerFound && env.carFound) then
    (.error .customerOrCarNotFound, [])
  else if env.resolvedServices.length ≠ env.serviceIdsCount then
    (.error .servicesNotFound, [])
  else
    createJobLoop env (env.resolvedServices.foldl (fun sum s => sum + s.price) 0) 0 5

/-- `Math.random() * 100`, the backoff delay in milliseconds between retry
attempts. -/
def backoffDelayMs (r : ℚ) : ℚ := r * 100

/-- The effect trace of `k` consecutive duplicate-key attempts, each followed
by its backoff. -/
def dupPrefix (env : CreateEnv) : Nat → List Effect
  | 0 => []
  | k + 1 => dupPrefix env k ++
      [.tokenGen (env.tokens k), .insertAttempt (env.tokens k), .backoff]

/-- The jobs producible by the verified subsystem: created by the `POST /jobs`
pipeline, or stepped by a successful `PATCH /jobs/:id/status`. -/
inductive ReachableJob : Job → Prop
  | created (env : CreateEnv) (j : Job) (tr : List Effect)
      (h : createJob env = (.ok j, tr)) : ReachableJob j
  | updated (j j' : Job) (s : String) (notes : Option String)
      (ai : Option (List String)) (now : Nat) (hj : ReachableJob j)
      (h : updateJobStatus (some j) s notes ai now = .ok j') : ReachableJob j'

/-! ## Helper lemmas -/

/-- Helper: every character `digitChar` produces is a decimal digit. -/
theorem digitChar_isDigit (n : Nat) : (digitChar n).isDigit = true := by
  unfold digitChar
  have h : n % 10 < 10 := Nat.mod_lt _ (by omega)
  generalize n % 10 = k at h ⊢
  interval_cases k <;> decide

/-- Helper: every character drawn by `generateRandomString` is in the safe
alphabet. -/
theorem isSafeChar_get (i : Fin 32) : isSafeChar (safeChars.get (i.cast rfl)) = true := by
  fin_cases i <;> decide

/-- Helper: the character list of a six-draw random suffix. -/
theorem generateRandomString_six_data (r : Nat → Fin 32) :
    (generateRandomString 6 r).data =
      [safeChars.get ((r 0).cast rfl), safeChars.get ((r 1).cast rfl),
       safeChars.get ((r 2).cast rfl), safeChars.get ((r 3).cast rfl),
       safeChars.get ((r 4).cast rfl), safeChars.get ((r 5).cast rfl)] := rfl

/-- Helper: the character list of the date prefix. -/
theorem dateStr_data (y m d : Nat) :
    (dateStr y m d).data =
      [digitChar (y / 1000), digitChar (y / 100), digitChar (y / 10), digitChar y,
       digitChar (m / 10), digitChar m, digitChar (d / 10), digitChar d] := rfl

/-- Helper: a token returned by the retry loop was built as `ds ++ "-" ++` a
six-draw suffix of some attempt, and was absent from the tenant's existing
tokens when returned. -/
theorem tokenLoopAux_sound (ds : String) (existing : List String) (rand : Nat → Fin 32) :
    ∀ (fuel attempts : Nat) (t : String),
      tokenLoopAux ds existing rand attempts fuel = some t →
      existing.contains t = false ∧
      ∃ i, t = ds ++ "-" ++ generateRandomString 6 (fun k => rand (6 * i + k)) := by
  intro fuel
  induction fuel with
  | zero =>
    intro attempts t ht
    simp [tokenLoopAux] at ht
  | succ n ih =>
    intro attempts t ht
    simp only [tokenLoopAux] at ht
    split at ht
    · exact ih (attempts + 1) t ht
    · rename_i hc
      obtain rfl : _ = t := Option.some_injective _ ht
      exact ⟨Bool.not_eq_true _ ▸ hc, attempts, rfl⟩

/-- Helper: the fleet-capacity reason always starts with `'M'`. -/
theorem fleetReason_head (n : Nat) : (fleetReason n).data.head? = some 'M' := by
  have h : ("Maximum capacity of " : String).data =
      'M' :: ("aximum capacity of " : String).data := by decide
  simp [fleetReason, String.data_append, h]

/-- Helper: the fleet-capacity reason differs from every string whose first
character is not `'M'`. -/
theorem fleetReason_ne (n : Nat) (s : String) (hs : s.data.head? ≠ some 'M') :
    fleetReason n ≠ s := by
  intro h
  exact hs (h ▸ fleetReason_head n)

/-- Helper: a successful pass of the creation retry loop returns exactly the
document passed to `Job.create` on some attempt. -/
theorem createJobLoop_ok (env : CreateEnv) (tp : Int) :
    ∀ (fuel attempts : Nat) (j : Job) (tr : List Effect),
      createJobLoop env tp attempts fuel = (.ok j, tr) →
      ∃ i, j = createdDoc env tp i := by
  intro fuel
  induction fuel with
  | zero =>
    intro attempts j tr h
    simp [createJobLoop] at h
  | succ n ih =>
    intro attempts j tr h
    simp only [createJobLoop] at h
    split at h
    · rw [Prod.mk.injEq] at h
      exact ⟨attempts, ((Except.ok.injEq _ _).mp h.1).symm⟩
    · split at h
      · rw [Prod.mk.injEq] at h
        exact ih (attempts + 1) j _ (by rw [← h.1])
      · rw [Prod.mk.injEq] at h
        exact absurd h.1 (by simp)
    · rw [Prod.mk.injEq] at h
      exact absurd h.1 (by simp)

/-- Helper: a successful `createJob` returns a document built by `Job.create`
with the pipeline's computed total price. -/
theorem createJob_ok (env : CreateEnv) (j : Job) (tr : List Effect)
    (h : createJob env = (.ok j, tr)) :
    ∃ i, j = createdDoc env (env.resolvedServices.foldl (fun sum s => sum + s.price) 0) i := by
  simp only [createJob] at h
  split_ifs at h
  · simp at h
  · simp at h
  · simp at h
  · exact createJobLoop_ok env _ 5 0 j tr h

/-- Helper: `reduce((sum, s) => sum + s.price, 0)` equals the sum of the
prices. -/
theorem foldl_price_eq_sum (l : List Service) :
    l.foldl (fun sum s => sum + s.price) 0 = (l.map Service.price).sum := by
  suffices h : ∀ a : Int, l.foldl (fun sum s => sum + s.price) a =
      a + (l.map Service.price).sum by
    simpa using h 0
  induction l with
  | nil => intro a; simp
  | cons x xs ih => intro a; simp [ih, add_assoc]

/-- Helper: a successful status update returns the stored document with the
requested status and exactly one appended history entry. -/
theorem updateJobStatus_ok (j : Job) (s : String) (notes : Option String)
    (ai : Option (List String)) (now : Nat) (j' : Job)
    (h : updateJobStatus (some j) s notes ai now = .ok j') :
    j'.status = s ∧ j'.statusHistory = j.statusHistory ++ [⟨s, notes, now⟩] := by
  simp only [updateJobStatus] at h
  split_ifs at h
  all_goals try rw [Except.ok.injEq] at h
  all_goals first | (subst h; exact ⟨rfl, rfl⟩) | simp at h

/-! ## Claims C1 and C5: transition-rule facts -/

/-- C1: the claim says every pair drawn from the current four-state flow
RECEIVED → WORK_STARTED → COMPLETED → DELIVERED is legal iff forward-or-equal,
in particular `isValidStatusTransition('RECEIVED','WORK_STARTED') = true`.
The code still orders the retired six-state flow, so WORK_STARTED — the status
the current route validator accepts and the migration script writes — is not
in `statusOrder` and every transition into or out of it is rejected, while the
retired IN_PROGRESS/WASHING/DRYING statuses are still accepted. -/
theorem c1_work_started_rejected_old_flow_alive :
    isValidStatusTransition "RECEIVED" "WORK_STARTED" = false ∧
    isValidStatusTransition "WORK_STARTED" "WORK_STARTED" = false ∧
    isValidStatusTransition "WORK_STARTED" "COMPLETED" = false ∧
    isValidStatusTransition "RECEIVED" "IN_PROGRESS" = true ∧
    allowedStatuses.contains "WORK_STARTED" = true ∧
    statusOrder.contains "WORK_STARTED" = false := by
  decide

/-- C5 counterexample: the claim states `isValidStatusTransition('DELIVERED', t)`
is false for every `t`, including the no-op DELIVERED → DELIVERED; the code
returns true there because the index comparison `5 ≥ 5` holds. -/
theorem c5_delivered_noop_allowed :
    isValidStatusTransition "DELIVERED" "DELIVERED" = true := by
  decide

/-- C5 amended: for every requested status `t` other than DELIVERED itself,
`isValidStatusTransition('DELIVERED', t)` returns false; the only legal move
out of DELIVERED is the no-op DELIVERED → DELIVERED. -/
theorem c5_delivered_dead_except_noop (t : String) (ht : t ≠ "DELIVERED") :
    isValidStatusTransition "DELIVERED" t = false := by
  by_cases hc : t = "CANCELLED"
  · subst hc; decide
  · have hnew : jsIndexOfAux statusOrder t 0 = -1 ∨
        (0 ≤ jsIndexOfAux statusOrder t 0 ∧ jsIndexOfAux statusOrder t 0 < 5) := by
      simp only [statusOrder, jsIndexOfAux]
      split_ifs <;> simp_all
    have hcur : jsIndexOfAux statusOrder "DELIVERED" 0 = 5 := by decide
    simp only [isValidStatusTransition, if_neg hc, jsIndexOf, hcur]
    rcases hnew with h | ⟨h0, h5⟩
    · simp [h]
    · have hne : jsIndexOfAux statusOrder t 0 ≠ -1 := by omega
      simp [hne]
      omega

/-- Witness for the C5 amended theorem at the concrete input CANCELLED. -/
theorem c5_delivered_dead_except_noop_witness :
    isValidStatusTransition "DELIVERED" "CANCELLED" = false :=
  c5_delivered_dead_except_noop "CANCELLED" (by decide)

/-! ## Claim C7: primary-path token format and freshness -/

/-- C7: every token the primary path returns is the 8-digit date string, a
dash, and six characters of the safe alphabet (the `^[0-9]{8}-[A-Z2-9]{6}$`
shape, an alphabet with no 0, O, I or 1), and it is absent from the tenant's
existing tokens at the moment of issuance. -/
theorem c7_primary_token (y m d : Nat) (existing : List String) (rand : Nat → Fin 32)
    (t : String) (h : tokenLoop (dateStr y m d) existing rand = some t) :
    primaryTokenFormat t = true ∧
    t.data.take 8 = (dateStr y m d).data ∧
    existing.contains t = false ∧
    (['0', 'O', 'I', '1'].all fun c => !(isSafeChar c)) = true := by
  obtain ⟨hcon, i, hform⟩ := tokenLoopAux_sound (dateStr y m d) existing rand 10 0 t h
  subst hform
  refine ⟨?_, ?_, hcon, by decide⟩
  · simp [primaryTokenFormat, String.data_append, dateStr_data,
      generateRandomString_six_data, digitChar_isDigit, List.get?]
    exact ⟨isSafeChar_get _, isSafeChar_get _, isSafeChar_get _,
      isSafeChar_get _, isSafeChar_get _, isSafeChar_get _⟩
  · simp [String.data_append, dateStr_data, generateRandomString_six_data]

/-- Witness for C7 at a concrete date, empty job collection and constant
random stream: the loop's first draw `20260208-AAAAAA` is returned. -/
theorem c7_primary_token_witness :
    primaryTokenFormat "20260208-AAAAAA" = true ∧
    ("20260208-AAAAAA" : String).data.take 8 = (dateStr 2026 2 8).data ∧
    ([] : List String).contains "20260208-AAAAAA" = false :=
  ⟨(c7_primary_token 2026 2 8 [] (fun _ => (0 : Fin 32)) "20260208-AAAAAA" (by decide)).1,
   (c7_primary_token 2026 2 8 [] (fun _ => (0 : Fin 32)) "20260208-AAAAAA" (by decide)).2.1,
   (c7_primary_token 2026 2 8 [] (fun _ => (0 : Fin 32)) "20260208-AAAAAA" (by decide)).2.2.1⟩

/-! ## Claim C10: the exhaustion fallback token -/

/-- C10: when all ten primary attempts collide, `generateTokenNumber` returns
the date prefix, a dash, the last four characters of the uppercased base-36
timestamp, and four safe-alphabet characters — with no existence check (at the
concrete input below the fallback token is already among the tenant's tokens
and is returned anyway), the timestamp part can contain the confusable
characters O, 0, I, 1, and the fallback need not match the primary format. -/
theorem c10_fallback_token :
    (∀ (y m d ts : Nat) (existing : List String) (rand : Nat → Fin 32),
      tokenLoop (dateStr y m d) existing rand = none →
      generateTokenNumber y m d ts existing rand =
        dateStr y m d ++ "-" ++ timestampTail ts ++
          generateRandomString 4 (fun k => rand (60 + k))) ∧
    timestampTail 1120393 = "O0I1" ∧
    generateTokenNumber 2026 2 8 1120393
        ["20260208-AAAAAA", "20260208-O0I1AAAA"] (fun _ => (0 : Fin 32)) =
      "20260208-O0I1AAAA" ∧
    (["20260208-AAAAAA", "20260208-O0I1AAAA"] : List String).contains
      "20260208-O0I1AAAA" = true ∧
    primaryTokenFormat "20260208-O0I1AAAA" = false ∧
    ('O' ∈ ("O0I1" : String).data ∧ '0' ∈ ("O0I1" : String).data ∧
     'I' ∈ ("O0I1" : String).data ∧ '1' ∈ ("O0I1" : String).data) := by
  have h36 : toBase36 1120393 = ['O', '0', 'I', '1'] := by
    simp [toBase36, base36Char]
  have hts : timestampTail 1120393 = "O0I1" := by
    simp [timestampTail, h36]
  have hfall : ∀ (y m d ts : Nat) (existing : List String) (rand : Nat → Fin 32),
      tokenLoop (dateStr y m d) existing rand = none →
      generateTokenNumber y m d ts existing rand =
        dateStr y m d ++ "-" ++ timestampTail ts ++
          generateRandomString 4 (fun k => rand (60 + k)) := by
    intro y m d ts existing rand hnone
    unfold generateTokenNumber
    rw [hnone]
  have hnone : tokenLoop (dateStr 2026 2 8)
      ["20260208-AAAAAA", "20260208-O0I1AAAA"] (fun _ => (0 : Fin 32)) = none := by
    decide
  refine ⟨hfall, hts, ?_, by decide, by decide, by decide⟩
  rw [hfall 2026 2 8 1120393 _ _ hnone, hts]
  decide

/-- Witness for the universally quantified fallback clause of C10 at the
concrete all-collide input. -/
theorem c10_fallback_token_witness :
    generateTokenNumber 2026 2 8 1120393
        ["20260208-AAAAAA", "20260208-O0I1AAAA"] (fun _ => (0 : Fin 32)) =
      dateStr 2026 2 8 ++ "-" ++ timestampTail 1120393 ++
        generateRandomString 4 (fun k => (fun _ => (0 : Fin 32)) (60 + k)) :=
  c10_fallback_token.1 2026 2 8 1120393
    ["20260208-AAAAAA", "20260208-O0I1AAAA"] (fun _ => (0 : Fin 32)) (by decide)

/-! ## Claims C3 and C9: capacity decisions -/

/-- C3: for an existing tenant whose policy is SINGLE or MULTIPLE, the gate
accepts iff the active-job count is strictly below the limit (1 under SINGLE,
`maxConcurrentJobs` under MULTIPLE), and each rejection carries the reason of
its own case, the two reasons being distinct strings. -/
theorem c3_capacity_gate (b : Business) (jobs : List Job)
    (hpol : b.carHandlingCapacity = "SINGLE" ∨ b.carHandlingCapacity = "MULTIPLE") :
    ((canAcceptNewJob (some b) jobs).canAccept = true ↔
      activeJobsCount jobs < capacityLimit b) ∧
    (b.carHandlingCapacity = "SINGLE" → activeJobsCount jobs ≥ 1 →
      canAcceptNewJob (some b) jobs = ⟨false, some "Another job is already in progress"⟩) ∧
    (b.carHandlingCapacity = "MULTIPLE" → activeJobsCount jobs ≥ b.maxConcurrentJobs →
      canAcceptNewJob (some b) jobs = ⟨false, some (fleetReason b.maxConcurrentJobs)⟩) ∧
    (∀ n : Nat, fleetReason n ≠ "Another job is already in progress") := by
  refine ⟨?_, ?_, ?_, fun n => fleetReason_ne n _ (by decide)⟩
  · rcases hpol with h | h <;>
      simp only [canAcceptNewJob, capacityLimit, h, if_pos rfl] <;>
      split_ifs with hcnt <;> simp_all <;> omega
  · intro h hcnt
    simp [canAcceptNewJob, h, hcnt]
  · intro h hcnt
    have hne : b.carHandlingCapacity ≠ "SINGLE" := by simp [h]
    simp [canAcceptNewJob, hne, hcnt, fleetReason]

/-- Witness for C3 at a concrete SINGLE-policy tenant with one active job. -/
theorem c3_capacity_gate_witness :
    canAcceptNewJob (some ⟨"SINGLE", 3⟩)
        [⟨"20260101-ABCDEF", "RECEIVED", 0, [], [⟨"RECEIVED", none, 0⟩], [], none⟩] =
      ⟨false, some "Another job is already in progress"⟩ :=
  (c3_capacity_gate ⟨"SINGLE", 3⟩
      [⟨"20260101-ABCDEF", "RECEIVED", 0, [], [⟨"RECEIVED", none, 0⟩], [], none⟩]
      (Or.inl rfl)).2.1 rfl (by decide)

/-- C9: a missing tenant yields the refusal `{canAccept: false,
reason: 'Business not found'}`, whose reason differs from the reason of every
ordinary capacity refusal (both the single-slot-busy string and every
fleet-capacity string). -/
theorem c9_missing_tenant_not_found (jobs : List Job) :
    canAcceptNewJob none jobs = ⟨false, some "Business not found"⟩ ∧
    ("Business not found" : String) ≠ "Another job is already in progress" ∧
    (∀ n : Nat, fleetReason n ≠ "Business not found") :=
  ⟨rfl, by decide, fun n => fleetReason_ne n _ (by decide)⟩

/-! ## Claim C2: delivery requires two after-images -/

/-- C2: for a job not yet DELIVERED, requesting DELIVERED with a missing
afterImages array or one holding fewer than 2 entries is rejected as the
validation error, and the stored job — status, history, images, delivery
stamp — is exactly the one before the call. -/
theorem c2_delivered_needs_two_images (j : Job) (notes : Option String)
    (ai : Option (List String)) (now : Nat) (hstat : j.status ≠ "DELIVERED")
    (hai : ai = none ∨ ∃ l, ai = some l ∧ l.length < 2) :
    updateJobStatus (some j) "DELIVERED" notes ai now = .error .missingAfterImages ∧
    persistedJob (some j) (updateJobStatus (some j) "DELIVERED" notes ai now) = some j := by
  have hguard : afterImagesTooFew ai = true := by
    rcases hai with h | ⟨l, h, hl⟩ <;> subst h <;> simp [afterImagesTooFew]
    omega
  have hres : updateJobStatus (some j) "DELIVERED" notes ai now = .error .missingAfterImages := by
    simp [updateJobStatus, allowedStatuses, hguard]
  exact ⟨hres, by rw [hres]; rfl⟩

/-- Witness for C2: a WORK_STARTED job with a single after-image is rejected. -/
theorem c2_delivered_needs_two_images_witness :
    updateJobStatus
        (some ⟨"20260101-ABCDEF", "WORK_STARTED", 100, [], [⟨"RECEIVED", none, 0⟩], [], none⟩)
        "DELIVERED" none (some ["img1"]) 7 = .error .missingAfterImages :=
  (c2_delivered_needs_two_images
      ⟨"20260101-ABCDEF", "WORK_STARTED", 100, [], [⟨"RECEIVED", none, 0⟩], [], none⟩
      none (some ["img1"]) 7 (by decide) (Or.inr ⟨["img1"], rfl, by decide⟩)).1

/-! ## Claim C4: duplicate-key retry policy -/

/-- C4: once the creation pipeline reaches the insert loop, a duplicate-key
failure (`code === 11000`) on every attempt makes the orchestrator regenerate
the token and retry up to the 5-attempt budget, with a backoff between
attempts, surfacing the fatal duplicate-key error only after the budget is
spent; a non-duplicate insert failure at any attempt propagates immediately,
with no further token generation, insert or backoff; the randomized backoff
`Math.random() * 100` always lies in [0, 100) milliseconds. -/
theorem c4_duplicate_key_retry (env : CreateEnv)
    (hcap : (canAcceptNewJob env.business env.tenantJobs).canAccept = true)
    (hcust : env.customerFound = true) (hcar : env.carFound = true)
    (hsvc : env.resolvedServices.length = env.serviceIdsCount) :
    ((∀ i, i < 5 → env.outcome i = .dupKey) →
      createJob env = (.error .duplicateKeyExhausted,
        dupPrefix env 4 ++ [.tokenGen (env.tokens 4), .insertAttempt (env.tokens 4)])) ∧
    (∀ k, k < 5 → (∀ i, i < k → env.outcome i = .dupKey) →
      env.outcome k = .otherFailure →
      createJob env = (.error .insertFailure,
        dupPrefix env k ++ [.tokenGen (env.tokens k), .insertAttempt (env.tokens k)])) ∧
    (∀ r : ℚ, 0 ≤ r → r < 1 → 0 ≤ backoffDelayMs r ∧ backoffDelayMs r < 100) := by
  have hpipe : createJob env =
      createJobLoop env (env.resolvedServices.foldl (fun sum s => sum + s.price) 0) 0 5 := by
    simp [createJob, hcap, hcust, hcar, hsvc]
  refine ⟨?_, ?_, ?_⟩
  · intro hdup
    have h0 := hdup 0 (by omega)
    have h1 := hdup 1 (by omega)
    have h2 := hdup 2 (by omega)
    have h3 := hdup 3 (by omega)
    have h4 := hdup 4 (by omega)
    rw [hpipe]
    simp [createJobLoop, h0, h1, h2, h3, h4, dupPrefix]
  · intro k hk hdups hother
    rw [hpipe]
    interval_cases k
    · simp [createJobLoop, hother, dupPrefix]
    · have h0 := hdups 0 (by omega)
      simp [createJobLoop, h0, hother, dupPrefix]
    · have h0 := hdups 0 (by omega)
      have h1 := hdups 1 (by omega)
      simp [createJobLoop, h0, h1, hother, dupPrefix]
    · have h0 := hdups 0 (by omega)
      have h1 := hdups 1 (by omega)
      have h2 := hdups 2 (by omega)
      simp [createJobLoop, h0, h1, h2, hother, dupPrefix]
    · have h0 := hdups 0 (by omega)
      have h1 := hdups 1 (by omega)
      have h2 := hdups 2 (by omega)
      have h3 := hdups 3 (by omega)
      simp [createJobLoop, h0, h1, h2, h3, hother, dupPrefix]
  · intro r hr0 hr1
    unfold backoffDelayMs
    constructor
    · exact mul_nonneg hr0 (by norm_num)
    · nlinarith

/-- Witness for C4: a concrete environment whose five insert attempts all hit
duplicate keys surfaces the duplicate-key error after the full trace. -/
theorem c4_duplicate_key_retry_witness :
    createJob ⟨some ⟨"SINGLE", 3⟩, [], true, true, 0, [],
        (fun _ => "TOK"), (fun _ => .dupKey), 0⟩ =
      (.error .duplicateKeyExhausted,
       dupPrefix ⟨some ⟨"SINGLE", 3⟩, [], true, true, 0, [],
           (fun _ => "TOK"), (fun _ => .dupKey), 0⟩ 4 ++
         [.tokenGen "TOK", .insertAttempt "TOK"]) :=
  (c4_duplicate_key_retry
      ⟨some ⟨"SINGLE", 3⟩, [], true, true, 0, [], (fun _ => "TOK"), (fun _ => .dupKey), 0⟩
      (by decide) rfl rfl rfl).1 (fun i _ => rfl)

/-! ## Claim C6: batch service resolution and price snapshot -/

/-- C6: when the pipeline reaches service resolution and the resolved count
differs from the requested count, the request is rejected as the service
validation failure with an empty effect trace — no `generateTokenNumber` call
and no `Job.create` attempt happened; and every successfully created job
carries `totalPrice` equal to the sum of the resolved services' prices and one
`{serviceId, price}` snapshot per resolved service. -/
theorem c6_service_resolution (env : CreateEnv) :
    ((canAcceptNewJob env.business env.tenantJobs).canAccept = true →
      env.customerFound = true → env.carFound = true →
      env.resolvedServices.length ≠ env.serviceIdsCount →
      createJob env = (.error .servicesNotFound, [])) ∧
    (∀ (j : Job) (tr : List Effect), createJob env = (.ok j, tr) →
      j.totalPrice = (env.resolvedServices.map Service.price).sum ∧
      j.services = env.resolvedServices.map (fun s => ⟨s.id, s.price⟩)) := by
  constructor
  · intro hcap hcust hcar hmis
    simp [createJob, hcap, hcust, hcar, hmis]
  · intro j tr h
    obtain ⟨i, rfl⟩ := createJob_ok env j tr h
    exact ⟨by simp [createdDoc, foldl_price_eq_sum], rfl⟩

/-- Witness for C6: one of two requested services fails to resolve, and the
request is rejected with no token generated and no insert attempted. -/
theorem c6_service_resolution_witness :
    createJob ⟨some ⟨"SINGLE", 3⟩, [], true, true, 2, [⟨"svcA", 50⟩],
        (fun _ => "TOK"), (fun _ => .success), 0⟩ =
      (.error .servicesNotFound, []) :=
  (c6_service_resolution
      ⟨some ⟨"SINGLE", 3⟩, [], true, true, 2, [⟨"svcA", 50⟩],
        (fun _ => "TOK"), (fun _ => .success), 0⟩).1
    (by decide) rfl rfl (by decide)

/-! ## Claim C8: status-history invariant -/

/-- C8: every created job starts with the one-entry RECEIVED history and
status RECEIVED; every successful status update sets the requested status and
appends exactly one entry carrying it; hence every job reachable through the
subsystem has a nonempty history whose last entry's status equals the job's
status. -/
theorem c8_status_history_invariant :
    (∀ (env : CreateEnv) (j : Job) (tr : List Effect),
      createJob env = (.ok j, tr) →
      j.status = "RECEIVED" ∧ j.statusHistory = [⟨"RECEIVED", none, env.now⟩]) ∧
    (∀ (j : Job) (s : String) (notes : Option String) (ai : Option (List String))
        (now : Nat) (j' : Job),
      updateJobStatus (some j) s notes ai now = .ok j' →
      j'.status = s ∧ j'.statusHistory = j.statusHistory ++ [⟨s, notes, now⟩]) ∧
    (∀ j : Job, ReachableJob j →
      1 ≤ j.statusHistory.length ∧
      ∃ e, j.statusHistory.getLast? = some e ∧ e.status = j.status) := by
  refine ⟨?_, ?_, ?_⟩
  · intro env j tr h
    obtain ⟨i, rfl⟩ := createJob_ok env j tr h
    exact ⟨rfl, rfl⟩
  · intro j s notes ai now j' h
    exact updateJobStatus_ok j s notes ai now j' h
  · intro j hreach
    induction hreach with
    | created env j tr h =>
      obtain ⟨i, rfl⟩ := createJob_ok env j tr h
      exact ⟨by simp [createdDoc], ⟨"RECEIVED", none, env.now⟩, rfl, rfl⟩
    | updated j j' s notes ai now hj h ih =>
      obtain ⟨hs, hh⟩ := updateJobStatus_ok j s notes ai now j' h
      refine ⟨by simp [hh], ⟨s, notes, now⟩, ?_, by simp [hs]⟩
      simp [hh, List.getLast?_concat]

/-- Witness for C8: a concrete creation followed by the invariant read off the
resulting job. -/
theorem c8_status_history_invariant_witness :
    1 ≤ (Job.mk "20260208-AAAAAA" "RECEIVED" 100 [⟨"s1", 100⟩]
        [⟨"RECEIVED", none, 42⟩] [] none).statusHistory.length ∧
    ∃ e, (Job.mk "20260208-AAAAAA" "RECEIVED" 100 [⟨"s1", 100⟩]
        [⟨"RECEIVED", none, 42⟩] [] none).statusHistory.getLast? = some e ∧
      e.status = (Job.mk "20260208-AAAAAA" "RECEIVED" 100 [⟨"s1", 100⟩]
        [⟨"RECEIVED", none, 42⟩] [] none).status :=
  c8_status_history_invariant.2.2
    (Job.mk "20260208-AAAAAA" "RECEIVED" 100 [⟨"s1", 100⟩] [⟨"RECEIVED", none, 42⟩] [] none)
    (ReachableJob.created
      ⟨some ⟨"SINGLE", 3⟩, [], true, true, 1, [⟨"s1", 100⟩],
        (fun _ => "20260208-AAAAAA"), (fun _ => .success), 42⟩
      (Job.mk "20260208-AAAAAA" "RECEIVED" 100 [⟨"s1", 100⟩] [⟨"RECEIVED", none, 42⟩] [] none)
      [.tokenGen "20260208-AAAAAA", .insertAttempt "20260208-AAAAAA"]
      rfl)
